import Mathlib

/-!
Shallow embedding of the Resume-Analyzer application (src/app.py) and proofs
about its pipeline functions.  External effects (PDF parsing, OCR, language
detection, translation, the generative-model calls, the filesystem) are
modelled as explicit parameters: an oracle returning `none` models a call
that raised an exception.  Python string operations are modelled over
`List Char`, mirroring character-level semantics of str.strip, str.join,
slicing and str.replace (whitespace is modelled as ASCII whitespace).
-/

/-- Model of Python str.strip on character lists: drop whitespace from both ends. -/
def pyStripList (cs : List Char) : List Char :=
  ((cs.dropWhile Char.isWhitespace).reverse.dropWhile Char.isWhitespace).reverse

/-- Model of Python str.strip on strings. -/
def pyStrip (s : String) : String := String.mk (pyStripList s.toList)

/-- Model of Python sep.join(list): elements interleaved with the separator. -/
def pyJoin (sep : String) : List String → String
  | [] => ""
  | [x] => x
  | x :: y :: xs => x ++ sep ++ pyJoin sep (y :: xs)

/-- Model of Python s[:n]: the first n characters of s (all of s when shorter). -/
def pySlice (n : Nat) (s : String) : String := String.mk (s.toList.take n)

/-- Model of Python truthiness of an optional string: None and the empty string
are falsy, every other string is truthy. -/
def pyTruthy : Option String → Bool
  | none => false
  | some s => s != ""

/-! ## Document Extractor (app.py, extract_text_from_pdf, lines 20-44)

The structured-extraction phase is described by
* `structPages`: the results of page.extract_text() for the pages walked
  before any exception (`none` models a page with no text layer, which the
  guard `if page_text:` skips), and
* `structRaised`: whether the first try-block raised (at the scratch-file
  write, at pdfplumber.open, or while walking pages).
The OCR phase is `ocr`: `none` when convert_from_path or pytesseract raised,
otherwise the per-page image_to_string results in page order. -/

/-- Text accumulated by the structured-extraction loop: pages with no text
layer are skipped, the rest are concatenated in page order. -/
def concatPages (structPages : List (Option String)) : String :=
  String.join (structPages.filterMap id)

/-- OCR accumulation: each page contribution is image_to_string plus a newline. -/
def ocrConcat (ocrPages : List String) : String :=
  String.join (ocrPages.map (fun t => t ++ "\n"))

/-- Embedding of extract_text_from_pdf.  Note that the accumulator variable
text is shared between the two try-blocks in the source, so text accumulated
before a structured-extraction exception is still present when the OCR
fallback appends to it. -/
def extract_text_from_pdf (structPages : List (Option String)) (structRaised : Bool)
    (ocr : Option (List String)) : String :=
  if structRaised = false ∧ pyStrip (concatPages structPages) ≠ "" then
    pyStrip (concatPages structPages)
  else
    match ocr with
    | some ocrPages => pyStrip (concatPages structPages ++ ocrConcat ocrPages)
    | none => ""

/-- Filesystem view of extract_text_from_pdf for the scratch file temp.pdf.
The second component threads the content of temp.pdf (`none` = file absent,
`fs0` = the state before the call).  `writeOk` is whether the initial
`with open("temp.pdf", "wb")` write step completed: when it raised, the file
keeps its prior state (prior content or absent; a partially written file is
not distinguished from the prior state), no page is walked, and the first
try-block raises, so only the fallback paths remain; `parseRaised` is
whether, after a completed write, the pdfplumber open/walk raised.  No
statement of the source after the write touches temp.pdf, and no path
removes it before returning. -/
def extract_text_from_pdf_fs (fs0 : Option String) (uploaded : String)
    (writeOk : Bool) (structPages : List (Option String)) (parseRaised : Bool)
    (ocr : Option (List String)) : String × Option String :=
  if writeOk = true ∧ parseRaised = false ∧ pyStrip (concatPages structPages) ≠ "" then
    (pyStrip (concatPages structPages), some uploaded)
  else
    match ocr with
    | some ocrPages =>
        (pyStrip ((if writeOk then concatPages structPages else "") ++ ocrConcat ocrPages),
         if writeOk then some uploaded else fs0)
    | none => ("", if writeOk then some uploaded else fs0)

/-! ## Language Normalizer (app.py, detect_and_translate, lines 47-56) -/

/-- Embedding of detect_and_translate.  `detect` models langdetect.detect and
`translate` models Translator().translate(...).text; `none` models a raised
exception, which the catch-all except clause turns into the original text. -/
def detect_and_translate (detect : String → Option String)
    (translate : String → String → String → Option String)
    (text : String) (target_lang : String) : String :=
  match detect text with
  | none => text
  | some src_lang =>
    if src_lang ≠ target_lang then
      match translate text src_lang target_lang with
      | none => text
      | some translated => translated
    else text

/-! ## Analysis Client (app.py, analyze_resume, lines 59-87)

Only the prompt assembly is embedded; the generate_content call returns the
model response verbatim and is outside the program logic. -/

/-- The base instruction list of analyze_resume, before the optional
job-description section.  The resume text appended is the translated text. -/
def analyze_base_lines (translated_text : String) (job_description : Option String)
    (language : String) : List String :=
  ["Analyze this resume (originally in " ++ language ++ ") and provide:",
   "1. Skills Summary (Technical & Soft Skills)",
   "2. Missing Skills for Target Roles",
   "3. Improvement Recommendations (Courses/Certifications)",
   "4. Strengths & Weaknesses",
   "5. " ++ (if pyTruthy job_description then "Job Fit Analysis" else "General Career Advice"),
   "",
   "Resume:",
   translated_text]

/-- The comparison section appended by analyze_resume when a job description
is truthy. -/
def comparison_lines (job_description : Option String) : List String :=
  ["",
   "Job Description:",
   job_description.getD "",
   "",
   "Compare and highlight:",
   "- Matching qualifications",
   "- Missing requirements",
   "- Suggested adaptations"]

/-- The full list of prompt lines assembled by analyze_resume.  The text
embedded in the prompt is detect_and_translate(resume_text, target 'en');
the language argument appears only in the first framing line. -/
def analyze_resume_prompt_lines (detect : String → Option String)
    (translate : String → String → String → Option String)
    (resume_text : String) (job_description : Option String) (language : String) :
    List String :=
  let translated_text := detect_and_translate detect translate resume_text "en"
  analyze_base_lines translated_text job_description language
    ++ (if pyTruthy job_description then comparison_lines job_description else [])

/-- The outbound prompt of analyze_resume: the lines joined by newlines. -/
def analyze_resume_prompt (detect : String → Option String)
    (translate : String → String → String → Option String)
    (resume_text : String) (job_description : Option String) (language : String) :
    String :=
  pyJoin "\n" (analyze_resume_prompt_lines detect translate resume_text job_description language)

/-! ## Compliance Client (app.py, check_ats_compliance, lines 90-113) -/

/-- The outbound prompt of check_ats_compliance: fixed evaluation lines, then
the resume text truncated to its first 2000 characters. -/
def check_ats_prompt (resume_text : String) : String :=
  pyJoin "\n"
    ["Evaluate ATS (Applicant Tracking System) compliance:",
     "1. Keyword Optimization",
     "2. Proper Headings",
     "3. No Graphics/Tables",
     "4. Standard Fonts",
     "5. Correct File Format",
     "6. Skills Match",
     "7. Contact Info Visibility",
     "",
     "Return JSON with:",
     "\x7b\"strengths\": [str],",
     "\"weaknesses\": [str],",
     "\"suggestions\": [str]\x7d",
     "",
     "Resume: " ++ pySlice 2000 resume_text]

/-- Everything of the compliance prompt that precedes the truncated resume text. -/
def check_ats_prompt_head : String :=
  pyJoin "\n"
    ["Evaluate ATS (Applicant Tracking System) compliance:",
     "1. Keyword Optimization",
     "2. Proper Headings",
     "3. No Graphics/Tables",
     "4. Standard Fonts",
     "5. Correct File Format",
     "6. Skills Match",
     "7. Contact Info Visibility",
     "",
     "Return JSON with:",
     "\x7b\"strengths\": [str],",
     "\"weaknesses\": [str],",
     "\"suggestions\": [str]\x7d",
     "",
     "Resume: "]

/-- JSON values, as returned by Python json.loads. -/
inductive JValue where
  | null
  | bool (b : Bool)
  | num (n : Int)
  | str (s : String)
  | arr (items : List JValue)
  | obj (fields : List (String × JValue))

/-- Decides whether a JSON value is an object with exactly the three fields
strengths, weaknesses, suggestions in that order, each holding a list. -/
def isThreeListRecord : JValue → Bool
  | .obj [("strengths", .arr _), ("weaknesses", .arr _), ("suggestions", .arr _)] => true
  | _ => false

/-- The fallback record of three empty lists returned by the except clause. -/
def ats_default : JValue :=
  .obj [("strengths", .arr []), ("weaknesses", .arr []), ("suggestions", .arr [])]

/-- Embedding of the response handling of check_ats_compliance.  The upstream
round trip is `response`: `Except.error ()` models generate_content or the
response.text accessor raising, `Except.ok none` models json.loads raising on
a reply that is not valid JSON, and `Except.ok (some v)` models json.loads
succeeding with value v, which the source returns without validation. -/
def check_ats_compliance (response : Except Unit (Option JValue)) : JValue :=
  match response with
  | .ok (some v) => v
  | _ => ats_default

/-! ## Report Renderer (app.py, clean_text_for_pdf and generate_pdf_report,
lines 116-149) -/

/-- Model of Python text.replace(pat, rep) for a single-character pattern:
every occurrence of the character is replaced by the replacement characters. -/
def replaceChar (pat : Char) (rep : List Char) (cs : List Char) : List Char :=
  cs.flatMap (fun c => if c = pat then rep else [c])

/-- Embedding of clean_text_for_pdf: the seven replacements applied in the
insertion order of the source dictionary (en dash, em dash, curly single
quotes, curly double quotes, ellipsis). -/
def clean_text_for_pdf (text : String) : String :=
  String.mk
    (replaceChar '…' ['.', '.', '.']
      (replaceChar '”' ['"']
        (replaceChar '“' ['"']
          (replaceChar '’' ['\x27']
            (replaceChar '‘' ['\x27']
              (replaceChar '—' ['-']
                (replaceChar '–' ['-'] text.toList)))))))

/-- Embedding of generate_pdf_report.  `fontLoadOk` is whether the
add_font call for the Unicode-capable font succeeded; `outputOk` is whether
the remaining FPDF steps (multi_cell, output) succeeded.  The result is the
content written to the produced file, or `none` when the outer except
clause returned None. -/
def generate_pdf_report (fontLoadOk : Bool) (outputOk : Bool) (content : String) :
    Option String :=
  let written := if fontLoadOk then content else clean_text_for_pdf content
  if outputOk then some written else none

/-! ## Interactive Shell (app.py, lines 169-189)

The sidebar collects language and analysis_depth; the button handler calls
analyze_resume(resume_text, job_desc, language) and
check_ats_compliance(resume_text).  analysis_depth is never read after being
collected.  job_desc is the text_area string (empty when left blank). -/

/-- The two outbound prompts assembled by one Run Full Analysis interaction:
the analysis prompt and the compliance prompt. -/
def run_analysis_prompts (detect : String → Option String)
    (translate : String → String → String → Option String)
    (structPages : List (Option String)) (structRaised : Bool)
    (ocr : Option (List String)) (job_desc : String) (language : String)
    (_analysis_depth : String) : String × String :=
  let resume_text := extract_text_from_pdf structPages structRaised ocr
  (analyze_resume_prompt detect translate resume_text (some job_desc) language,
   check_ats_prompt resume_text)

/-! ## Substring containment -/

/-- Decidable substring test: the needle occurs contiguously in the haystack. -/
def strContainsB (needle haystack : String) : Bool :=
  (List.range (haystack.toList.length + 1)).any
    (fun i => needle.toList.isPrefixOf (haystack.toList.drop i))

/-- The needle occurs contiguously in the haystack. -/
def strContains (needle haystack : String) : Prop := strContainsB needle haystack = true

/-! ## Helper lemmas on the string models -/

/-- Appending strings concatenates their character lists. -/
theorem strToList_append (a b : String) : (a ++ b).toList = a.toList ++ b.toList :=
  String.data_append a b

/-- String append is associative. -/
theorem strAppend_assoc (a b c : String) : a ++ b ++ c = a ++ (b ++ c) :=
  String.append_assoc a b c

/-- A decomposition of the character list of the haystack around the needle
yields containment. -/
theorem strContains_of_decomp (needle haystack : String)
    (h : ∃ l r, haystack.toList = l ++ needle.toList ++ r) :
    strContains needle haystack := by
  obtain ⟨l, r, hlr⟩ := h
  unfold strContains strContainsB
  rw [List.any_eq_true]
  refine ⟨l.length, ?_, ?_⟩
  · rw [List.mem_range, hlr]
    simp
    omega
  · rw [hlr, List.append_assoc, List.drop_left]
    exact List.isPrefixOf_iff_prefix.mpr (List.prefix_append _ _)

/-- A member of a line list occurs contiguously in the joined string. -/
theorem pyJoin_decomp (sep x : String) :
    ∀ ls : List String, x ∈ ls →
      ∃ l r, (pyJoin sep ls).toList = l ++ x.toList ++ r
  | [], h => absurd h (List.not_mem_nil x)
  | [y], h => by
      rcases List.mem_singleton.mp h with rfl
      exact ⟨[], [], by simp [pyJoin]⟩
  | y :: z :: ys, h => by
      rcases List.mem_cons.mp h with rfl | h2
      · refine ⟨[], (sep ++ pyJoin sep (z :: ys)).toList, ?_⟩
        simp [pyJoin, strToList_append, strAppend_assoc]
      · obtain ⟨l, r, hlr⟩ := pyJoin_decomp sep x (z :: ys) h2
        refine ⟨(y ++ sep).toList ++ l, r, ?_⟩
        have h3 : pyJoin sep (y :: z :: ys) = (y ++ sep) ++ pyJoin sep (z :: ys) := rfl
        rw [h3, strToList_append, hlr]
        simp [List.append_assoc]

/-- A member of a line list is contained in the joined string. -/
theorem mem_pyJoin_contains (sep x : String) (ls : List String) (hx : x ∈ ls) :
    strContains x (pyJoin sep ls) :=
  strContains_of_decomp x (pyJoin sep ls) (pyJoin_decomp sep x ls hx)

/-- A character list whose strip is empty consists of whitespace only. -/
theorem all_ws_of_pyStripList_nil (cs : List Char) (h : pyStripList cs = []) :
    ∀ c ∈ cs, c.isWhitespace = true := by
  intro c hc
  unfold pyStripList at h
  rw [List.reverse_eq_nil_iff, List.dropWhile_eq_nil_iff] at h
  have hdrop : ∀ x ∈ cs.dropWhile Char.isWhitespace, x.isWhitespace = true := by
    intro x hx
    exact h x (List.mem_reverse.mpr hx)
  have hc2 : c ∈ cs.takeWhile Char.isWhitespace ++ cs.dropWhile Char.isWhitespace := by
    rw [List.takeWhile_append_dropWhile]
    exact hc
  rcases List.mem_append.mp hc2 with h1 | h2
  · exact List.mem_takeWhile_imp h1
  · exact hdrop _ h2

/-- Dropping leading whitespace skips over an all-whitespace block. -/
theorem dropWhile_ws_append (a b : List Char) (h : ∀ c ∈ a, c.isWhitespace = true) :
    (a ++ b).dropWhile Char.isWhitespace = b.dropWhile Char.isWhitespace := by
  induction a with
  | nil => rfl
  | cons x xs ih =>
      have hx : x.isWhitespace = true := h x (List.mem_cons_self x xs)
      have ih2 := ih (fun c hc => h c (List.mem_cons_of_mem x hc))
      simp [List.dropWhile_cons, hx, ih2]

/-- Stripping is unaffected by an all-whitespace leading block. -/
theorem pyStripList_append_of_all_ws (a b : List Char)
    (h : ∀ c ∈ a, c.isWhitespace = true) :
    pyStripList (a ++ b) = pyStripList b := by
  unfold pyStripList
  rw [dropWhile_ws_append a b h]

/-- Prepending a blank string does not change the stripped result. -/
theorem pyStrip_append_of_blank (s t : String) (h : pyStrip s = "") :
    pyStrip (s ++ t) = pyStrip t := by
  have h0 : pyStripList s.toList = [] := by
    have h1 := congrArg String.toList h
    simpa [pyStrip] using h1
  unfold pyStrip
  rw [strToList_append, pyStripList_append_of_all_ws _ _ (all_ws_of_pyStripList_nil _ h0)]

/-- Joining with a nonempty tail unfolds one step. -/
theorem pyJoin_cons_cons (sep y : String) (l : List String) (hl : l ≠ []) :
    pyJoin sep (y :: l) = y ++ sep ++ pyJoin sep l := by
  cases l with
  | nil => exact absurd rfl hl
  | cons z zs => rfl

/-- A trailing append inside the last joined element can be pulled out. -/
theorem pyJoin_snoc_append (sep a x : String) :
    ∀ ls : List String, pyJoin sep (ls ++ [a ++ x]) = pyJoin sep (ls ++ [a]) ++ x
  | [] => rfl
  | y :: ys => by
      rw [List.cons_append, List.cons_append,
          pyJoin_cons_cons sep y (ys ++ [a ++ x]) (by simp),
          pyJoin_cons_cons sep y (ys ++ [a]) (by simp),
          pyJoin_snoc_append sep a x ys]
      simp [strAppend_assoc]

/-- The compliance prompt is a fixed head followed by the truncated resume text. -/
theorem check_ats_prompt_eq (resume_text : String) :
    check_ats_prompt resume_text = check_ats_prompt_head ++ pySlice 2000 resume_text :=
  pyJoin_snoc_append "\n" "Resume: " (pySlice 2000 resume_text)
    ["Evaluate ATS (Applicant Tracking System) compliance:",
     "1. Keyword Optimization",
     "2. Proper Headings",
     "3. No Graphics/Tables",
     "4. Standard Fonts",
     "5. Correct File Format",
     "6. Skills Match",
     "7. Contact Info Visibility",
     "",
     "Return JSON with:",
     "\x7b\"strengths\": [str],",
     "\"weaknesses\": [str],",
     "\"suggestions\": [str]\x7d",
     ""]

/-! ## Claim theorems -/

/-- C1, counterexample: a response that is valid JSON but not the expected
object shape (here a JSON array) is returned as is by check_ats_compliance,
so the result is not a record with the three list-valued fields. -/
theorem ats_compliance_not_always_record :
    isThreeListRecord (check_ats_compliance (Except.ok (some (JValue.arr [])))) = false := rfl

/-- C1, amended: whenever the request raises or the response fails to parse
as JSON, check_ats_compliance returns the record of three empty lists
(strengths, weaknesses, suggestions); whenever the response parses as JSON,
the parsed value is returned without validation, whatever its shape. -/
theorem ats_compliance_parse_fallback (response : Except Unit (Option JValue)) :
    (response = Except.error () → check_ats_compliance response = ats_default) ∧
    (response = Except.ok none → check_ats_compliance response = ats_default) ∧
    (∀ v, response = Except.ok (some v) → check_ats_compliance response = v) ∧
    isThreeListRecord ats_default = true := by
  refine ⟨?_, ?_, ?_, rfl⟩
  · rintro rfl; rfl
  · rintro rfl; rfl
  · rintro v rfl; rfl

/-- C1, witness: a reply that fails JSON parsing yields the default record. -/
theorem ats_compliance_parse_fallback_witness :
    check_ats_compliance (Except.ok none) = ats_default :=
  (ats_compliance_parse_fallback (Except.ok none)).2.1 rfl

/-- C2: when the structured extraction succeeds and the concatenated per-page
text layer is non-blank after trimming, extract_text_from_pdf returns that
concatenation trimmed, and the result does not depend on the OCR oracle;
moreover pages with no text layer are skipped by the concatenation. -/
theorem extract_prefers_text_layer (pages : List (Option String))
    (ocr ocr2 : Option (List String))
    (h : pyStrip (concatPages pages) ≠ "") :
    extract_text_from_pdf pages false ocr = pyStrip (concatPages pages) ∧
    extract_text_from_pdf pages false ocr = extract_text_from_pdf pages false ocr2 ∧
    (∀ pre post, concatPages (pre ++ none :: post) = concatPages (pre ++ post)) := by
  have h1 : ∀ o : Option (List String),
      extract_text_from_pdf pages false o = pyStrip (concatPages pages) := by
    intro o
    unfold extract_text_from_pdf
    rw [if_pos ⟨rfl, h⟩]
  refine ⟨h1 ocr, by rw [h1 ocr, h1 ocr2], ?_⟩
  intro pre post
  unfold concatPages
  rw [List.filterMap_append, List.filterMap_append]
  rfl

/-- C2, witness: a one-page PDF with text layer Hello and a skipped second
page returns Hello through the structured path. -/
theorem extract_prefers_text_layer_witness :
    pyStrip (concatPages [some "Hello", none]) ≠ "" ∧
    extract_text_from_pdf [some "Hello", none] false (some ["X"])
      = pyStrip (concatPages [some "Hello", none]) :=
  ⟨by decide,
   (extract_prefers_text_layer [some "Hello", none] (some ["X"]) none (by decide)).1⟩

/-- C3, counterexample: when the structured phase raises after accumulating
the page text Hello, the OCR fallback appends to the residual accumulator, so
the result is HelloWorld rather than the OCR-only concatenation World. -/
theorem extract_ocr_residual_counterexample :
    extract_text_from_pdf [some "Hello"] true (some ["World"]) = "HelloWorld" ∧
    extract_text_from_pdf [some "Hello"] true (some ["World"])
      ≠ pyStrip (ocrConcat ["World"]) := by
  refine ⟨by decide, by decide⟩

/-- C3, amended: when the structured phase yields no usable text, the result
is the text accumulated by the structured phase before its failure, followed
by the per-page OCR outputs each terminated by a newline, the whole trimmed
of leading and trailing whitespace; when the accumulated text is blank (in
particular when the failure happened before any page was read), this equals
exactly the trimmed OCR concatenation; when OCR also raises, the result is
the empty string. -/
theorem extract_ocr_fallback_amended (pages : List (Option String)) (raised : Bool)
    (ocrPages : List String)
    (h : raised = true ∨ pyStrip (concatPages pages) = "") :
    extract_text_from_pdf pages raised (some ocrPages)
      = pyStrip (concatPages pages ++ ocrConcat ocrPages) ∧
    (pyStrip (concatPages pages) = "" →
      extract_text_from_pdf pages raised (some ocrPages) = pyStrip (ocrConcat ocrPages)) ∧
    extract_text_from_pdf pages raised none = "" := by
  have hcond : ¬ (raised = false ∧ pyStrip (concatPages pages) ≠ "") := by
    rcases h with h | h
    · rintro ⟨h1, _⟩
      rw [h] at h1
      exact Bool.noConfusion h1
    · rintro ⟨_, h2⟩
      exact h2 h
  have h1 : extract_text_from_pdf pages raised (some ocrPages)
      = pyStrip (concatPages pages ++ ocrConcat ocrPages) := by
    unfold extract_text_from_pdf
    rw [if_neg hcond]
  refine ⟨h1, ?_, ?_⟩
  · intro hb
    rw [h1, pyStrip_append_of_blank _ _ hb]
  · unfold extract_text_from_pdf
    rw [if_neg hcond]

/-- C3, witness: a scan-only page (no text layer) falls back to OCR. -/
theorem extract_ocr_fallback_amended_witness :
    extract_text_from_pdf [none] false (some ["Scan"])
      = pyStrip (concatPages [none] ++ ocrConcat ["Scan"]) :=
  (extract_ocr_fallback_amended [none] false ["Scan"] (Or.inr (by decide))).1

/-- C4, counterexample: starting from a filesystem without temp.pdf, a call
whose write step completes leaves the scratch file existing when the call
returns, so the file is not removed before the call returns. -/
theorem temp_file_not_removed_counterexample :
    (extract_text_from_pdf_fs none "Bytes" true [] true none).2 ≠ none ∧
    (extract_text_from_pdf_fs none "Bytes" true [] true none).2 = some "Bytes" := by
  refine ⟨by decide, rfl⟩

/-- C4, amended: the with-block releases the handle of the scratch file, but
no path removes the file: the state of temp.pdf at return is exactly its
state right after the write step — the uploaded bytes whenever the write
completed (whatever happens later: parse failure, blank text, OCR failure),
and the prior state when the write step itself raised.  In no case is the
file cleaned up before the call returns; it is only overwritten by the next
call. -/
theorem temp_file_persists (fs0 : Option String) (uploaded : String) (writeOk : Bool)
    (pages : List (Option String)) (parseRaised : Bool) (ocr : Option (List String)) :
    (extract_text_from_pdf_fs fs0 uploaded writeOk pages parseRaised ocr).2
      = (if writeOk then some uploaded else fs0) ∧
    (writeOk = true →
      (extract_text_from_pdf_fs fs0 uploaded writeOk pages parseRaised ocr).2
        = some uploaded) := by
  have h1 : (extract_text_from_pdf_fs fs0 uploaded writeOk pages parseRaised ocr).2
      = (if writeOk then some uploaded else fs0) := by
    unfold extract_text_from_pdf_fs
    by_cases h : writeOk = true ∧ parseRaised = false ∧ pyStrip (concatPages pages) ≠ ""
    · rw [if_pos h]
      simp [h.1]
    · rw [if_neg h]
      cases ocr <;> rfl
  refine ⟨h1, fun hw => ?_⟩
  rw [h1, hw]
  rfl

/-- C4, witness: with a completed write, the file holds the uploaded bytes
at return. -/
theorem temp_file_persists_witness :
    (extract_text_from_pdf_fs none "Bytes" true [] false none).2 = some "Bytes" :=
  (temp_file_persists none "Bytes" true [] false none).2 rfl

/-- C5: detect_and_translate returns the original text unchanged whenever
language detection raises, whenever the detected source equals the target,
and whenever translation raises; in every other case it is still total and
returns a string (the translated text). -/
theorem detect_and_translate_fallback (detect : String → Option String)
    (translate : String → String → String → Option String) (text target : String) :
    (detect text = none → detect_and_translate detect translate text target = text) ∧
    (∀ src, detect text = some src → src = target →
      detect_and_translate detect translate text target = text) ∧
    (∀ src, detect text = some src → src ≠ target → translate text src target = none →
      detect_and_translate detect translate text target = text) := by
  refine ⟨?_, ?_, ?_⟩ <;> unfold detect_and_translate
  · intro h
    rw [h]
  · intro src h1 h2
    rw [h1]
    simp [h2]
  · intro src h1 h2 h3
    rw [h1]
    simp [h2, h3]

/-- C5, witness: detection failure on short text returns the text unchanged. -/
theorem detect_and_translate_fallback_witness :
    detect_and_translate (fun _ => none) (fun _ _ _ => none) "hola" "en" = "hola" :=
  (detect_and_translate_fallback (fun _ => none) (fun _ _ _ => none) "hola" "en").1 rfl

set_option maxRecDepth 8192 in
/-- C6, counterexample: when language detection reports fr and translation
rewrites the text, the assembled prompt contains the translated text but not
the literal resume text bonjour. -/
theorem analyze_prompt_literal_text_counterexample :
    strContainsB "bonjour"
      (analyze_resume_prompt (fun _ => some "fr") (fun _ _ _ => some "hola")
        "bonjour" none "en") = false := by decide

/-- C6, amended: for every resume text, job description and language, the
prompt assembled by analyze_resume contains the line numbered 1 about the
skills summary and the normalized text detect_and_translate(resume_text, en)
(the literal resume text exactly when normalization returns it unchanged);
its fifth numbered item is Job Fit Analysis when the job description is
truthy (non-empty) and General Career Advice otherwise; and the comparison
section with the three fixed sub-prompts is appended if and only if the job
description is truthy. -/
theorem analyze_prompt_structure (detect : String → Option String)
    (translate : String → String → String → Option String)
    (resume_text : String) (job_description : Option String) (language : String) :
    strContains "1. Skills Summary (Technical & Soft Skills)"
      (analyze_resume_prompt detect translate resume_text job_description language) ∧
    strContains (detect_and_translate detect translate resume_text "en")
      (analyze_resume_prompt detect translate resume_text job_description language) ∧
    (analyze_resume_prompt_lines detect translate resume_text job_description language).get? 5
      = some ("5. " ++ (if pyTruthy job_description then "Job Fit Analysis"
          else "General Career Advice")) ∧
    analyze_resume_prompt_lines detect translate resume_text job_description language
      = analyze_base_lines (detect_and_translate detect translate resume_text "en")
          job_description language
        ++ (if pyTruthy job_description then comparison_lines job_description else []) ∧
    (detect_and_translate detect translate resume_text "en" = resume_text →
      strContains resume_text
        (analyze_resume_prompt detect translate resume_text job_description language)) := by
  have h2 : strContains (detect_and_translate detect translate resume_text "en")
      (analyze_resume_prompt detect translate resume_text job_description language) := by
    apply mem_pyJoin_contains
    simp [analyze_resume_prompt_lines, analyze_base_lines]
  refine ⟨?_, h2, rfl, rfl, ?_⟩
  · apply mem_pyJoin_contains
    simp [analyze_resume_prompt_lines, analyze_base_lines]
  · intro h
    rw [h] at h2
    exact h2

/-- C6, witness: with detection failing, the normalized text is the resume
text itself and the prompt contains it literally. -/
theorem analyze_prompt_structure_witness :
    strContains "Python Developer"
      (analyze_resume_prompt (fun _ => none) (fun _ _ _ => none)
        "Python Developer" (some "") "en") :=
  (analyze_prompt_structure (fun _ => none) (fun _ _ _ => none)
    "Python Developer" (some "") "en").2.2.2.2 rfl

/-- C7: the compliance prompt is a fixed head followed by exactly the first
2000 characters of the resume text, and when the resume text has at most
2000 characters the full text is embedded. -/
theorem ats_prompt_truncates (resume_text : String) :
    check_ats_prompt resume_text = check_ats_prompt_head ++ pySlice 2000 resume_text ∧
    (pySlice 2000 resume_text).toList = resume_text.toList.take 2000 ∧
    (resume_text.toList.length ≤ 2000 →
      check_ats_prompt resume_text = check_ats_prompt_head ++ resume_text) := by
  refine ⟨check_ats_prompt_eq resume_text, rfl, ?_⟩
  intro hlen
  rw [check_ats_prompt_eq resume_text]
  have h : pySlice 2000 resume_text = resume_text := by
    unfold pySlice
    rw [List.take_of_length_le hlen]
    rfl
  rw [h]


/-- C7, witness: a short resume text is embedded whole. -/
theorem ats_prompt_truncates_witness :
    check_ats_prompt "Python Developer" = check_ats_prompt_head ++ "Python Developer" :=
  (ats_prompt_truncates "Python Developer").2.2 (by decide)

set_option maxRecDepth 8192 in
/-- C8, counterexample: two runs differing only in the language selector
produce different analysis prompts, because the language is interpolated
into the framing line; so the language setting is consumed by the pipeline. -/
theorem language_affects_prompt_counterexample :
    (run_analysis_prompts (fun _ => none) (fun _ _ _ => none)
        [some "Python Developer"] false none "" "en" "Basic").1
      ≠ (run_analysis_prompts (fun _ => none) (fun _ _ _ => none)
        [some "Python Developer"] false none "" "es" "Basic").1 := by decide

/-- C8, amended: the analysis-depth label is dead (no prompt or output
depends on it), and the language selection affects only the first framing
line of the analysis prompt: the compliance prompt and every analysis-prompt
line after the first are identical across language settings. -/
theorem dead_settings_amended (detect : String → Option String)
    (translate : String → String → String → Option String)
    (structPages : List (Option String)) (structRaised : Bool)
    (ocr : Option (List String)) (job_desc : String) (l1 l2 d1 d2 : String) :
    run_analysis_prompts detect translate structPages structRaised ocr job_desc l1 d1
      = run_analysis_prompts detect translate structPages structRaised ocr job_desc l1 d2 ∧
    (run_analysis_prompts detect translate structPages structRaised ocr job_desc l1 d1).2
      = (run_analysis_prompts detect translate structPages structRaised ocr job_desc l2 d2).2 ∧
    (analyze_resume_prompt_lines detect translate
        (extract_text_from_pdf structPages structRaised ocr) (some job_desc) l1).tail
      = (analyze_resume_prompt_lines detect translate
        (extract_text_from_pdf structPages structRaised ocr) (some job_desc) l2).tail ∧
    (analyze_resume_prompt_lines detect translate
        (extract_text_from_pdf structPages structRaised ocr) (some job_desc) l1).head?
      = some ("Analyze this resume (originally in " ++ l1 ++ ") and provide:") :=
  ⟨rfl, rfl, rfl, rfl⟩

/-- C9: when the Unicode font load fails but the remaining FPDF steps
succeed, generate_pdf_report still produces a complete output whose content
is the input with en dash, em dash, curly single and double quotes and
ellipsis replaced by ASCII equivalents; in particular a curly apostrophe
becomes a straight one. -/
theorem pdf_fallback_clean_output :
    (∀ content, generate_pdf_report false true content
      = some (clean_text_for_pdf content)) ∧
    generate_pdf_report false true "don’t" = some "don\x27t" ∧
    clean_text_for_pdf "–—‘’“”…" = "--\x27\x27\"\"..." := by
  refine ⟨fun content => rfl, by decide, by decide⟩

/-- C10: the resume text embedded in the analysis prompt is the normalized
text detect_and_translate(resume_text, en) for every language setting (the
target language is hard-coded to en), while the compliance prompt embeds the
raw extracted text, untranslated, truncated to 2000 characters. -/
theorem analysis_uses_translated_ats_uses_raw (detect : String → Option String)
    (translate : String → String → String → Option String)
    (structPages : List (Option String)) (structRaised : Bool)
    (ocr : Option (List String)) (job_desc : String) (language depth : String) :
    (analyze_resume_prompt_lines detect translate
        (extract_text_from_pdf structPages structRaised ocr) (some job_desc) language).get? 8
      = some (detect_and_translate detect translate
          (extract_text_from_pdf structPages structRaised ocr) "en") ∧
    strContains
      (detect_and_translate detect translate
        (extract_text_from_pdf structPages structRaised ocr) "en")
      (run_analysis_prompts detect translate structPages structRaised ocr
        job_desc language depth).1 ∧
    (run_analysis_prompts detect translate structPages structRaised ocr
        job_desc language depth).2
      = check_ats_prompt_head
        ++ pySlice 2000 (extract_text_from_pdf structPages structRaised ocr) := by
  refine ⟨rfl, ?_, check_ats_prompt_eq _⟩
  apply mem_pyJoin_contains
  simp [analyze_resume_prompt_lines, analyze_base_lines]
